import Mathlib

/-!
Shallow embedding of the core runtime of the discord.cpp library,
covering the reconnection controller, the websocket gateway connection,
the HTTP request pipeline, the rate limiter, the shard manager, the TTL
cache and the event dispatcher, together with theorems settling the
spec claims about them.

Machine integers from the C++ source are modelled as `Int`/`Nat`;
`std::chrono` time points and durations are modelled as integers
(milliseconds unless noted); doubles are modelled as `ℚ` with the
truncating `static_cast<long long>` made explicit; `nlohmann::json`
values that merely pass through are modelled as an abstract type
parameter or as the record of the fields the code actually reads.
-/

namespace DiscordCpp

/-! ## Reconnection controller (src/gateway/reconnection.cpp) -/

/-- Session identity held by `ReconnectionManager` (`session_info_`):
`session_id`, `sequence_number`, `can_resume`. -/
structure SessionInfo where
  session_id : String
  sequence_number : Int
  can_resume : Bool
deriving DecidableEq

/-- State of `ReconnectionManager` relevant to session handling.  The
retry counter, stop flag and thread handle do not affect the session
fields and are omitted. -/
structure ReconnectionManager where
  auto_reconnect_enabled : Bool
  session_info : SessionInfo
deriving DecidableEq

/-- Translation of `ReconnectionManager::is_resumable_close_code`
(reconnection.cpp lines 155-184): the eight 1xxx codes listed in the
switch return `true`, every 4000-4014 code listed returns `false`
(4006 is absent from the switch and falls to the default), and the
default returns `close_code >= 1000 && close_code < 2000`. -/
def is_resumable_close_code (c : Int) : Bool :=
  if c = 1000 || c = 1001 || c = 1006 || c = 1009 ||
     c = 1011 || c = 1012 || c = 1013 || c = 1014 then
    true
  else if c = 4000 || c = 4001 || c = 4002 || c = 4003 || c = 4004 ||
          c = 4005 || c = 4007 || c = 4008 || c = 4009 || c = 4010 ||
          c = 4011 || c = 4012 || c = 4013 || c = 4014 then
    false
  else
    decide (1000 ≤ c ∧ c < 2000)

/-- Translation of `ReconnectionManager::handle_disconnect`
(reconnection.cpp lines 18-36).  If auto-reconnect is off the call
returns immediately; otherwise `can_resume` is recomputed as
`is_resumable_close_code(code) && session_info_.can_resume`, and when
it is false the session id and sequence number are cleared.
`start_reconnect_sequence` only spawns the backoff thread and does not
touch the session fields. -/
def handle_disconnect (m : ReconnectionManager) (close_code : Int) :
    ReconnectionManager :=
  if !m.auto_reconnect_enabled then m
  else
    let can_resume := is_resumable_close_code close_code && m.session_info.can_resume
    if can_resume then
      { m with session_info := { m.session_info with can_resume := true } }
    else
      { m with session_info :=
          { session_id := "", sequence_number := 0, can_resume := false } }

/-- Translation of `ReconnectionManager::handle_invalid_session`
(reconnection.cpp lines 38-49). -/
def handle_invalid_session (m : ReconnectionManager) (can_resume : Bool) :
    ReconnectionManager :=
  if can_resume then
    { m with session_info := { m.session_info with can_resume := true } }
  else
    { m with session_info :=
        { session_id := "", sequence_number := 0, can_resume := false } }

/-- Translation of `ReconnectionManager::should_resume`
(reconnection.cpp lines 81-84). -/
def should_resume (m : ReconnectionManager) : Bool :=
  m.session_info.can_resume && !(m.session_info.session_id = "")

/-- Truncation of a rational toward zero, the semantics of C++
`static_cast<long long>` applied to a double. -/
def ratTrunc (x : ℚ) : ℤ :=
  if 0 ≤ x then ⌊x⌋ else ⌈x⌉

/-- Translation of `ReconnectionManager::calculate_backoff_delay`
(reconnection.cpp lines 118-131).  `base` and `maxDelay` are
millisecond counts; `u` is the jitter value drawn from
`uniform_real_distribution(0.8, 1.2)`, modelled as a rational; the
double product `base.count() * pow(2, attempt) * dis(gen)` is modelled
exactly in `ℚ` and the `static_cast<long long>` truncates it. -/
def calculate_backoff_delay (base maxDelay : ℤ) (attempt : ℕ) (u : ℚ) : ℤ :=
  min (ratTrunc ((base : ℚ) * 2 ^ attempt * u)) maxDelay

/-! ## WebSocket gateway connection (src/gateway/websocket_client.cpp) -/

/-- Outbound gateway payloads built by `WebSocketClient::Impl::identify`
(op 2, `{token, intents, properties}`) and
`WebSocketClient::Impl::resume` (op 6, `{token, session_id, seq}`).
The constant `properties` object is omitted.  Heartbeats are modelled
separately by `heartbeat_payload`. -/
inductive GatewayPayload where
  | identifyP (token : String) (intents : Int)
  | resumeP (token : String) (session_id : String) (seq : Int)
deriving DecidableEq

/-- Gateway opcode carried by an outbound payload. -/
def GatewayPayload.op : GatewayPayload → Int
  | .identifyP _ _ => 2
  | .resumeP _ _ _ => 6

/-- State of `WebSocketClient::Impl` relevant to the claims: the
token, intents, the impl's own `session_id_` and `last_sequence_`
members, the heartbeat interval started on HELLO, and the owned
`ReconnectionManager`.  `last_sequence_` is an `int` member that no
statement of websocket_client.cpp ever assigns; its initial value is
indeterminate in C++ and is modelled here as 0. -/
structure WSImpl where
  token : String
  intents : Int
  session_id : String
  last_sequence : Int
  heartbeat_interval : Option Int
  mgr : ReconnectionManager
deriving DecidableEq

/-- Translation of `WebSocketClient::Impl::identify`
(websocket_client.cpp lines 170-183): the list of payloads the call
sends. -/
def implIdentify (c : WSImpl) : List GatewayPayload :=
  [.identifyP c.token c.intents]

/-- Translation of `WebSocketClient::Impl::resume`
(websocket_client.cpp lines 185-200): falls back to `identify` when
the impl's `session_id_` is empty, else sends the RESUME payload built
from `session_id_` and `last_sequence_`. -/
def implResume (c : WSImpl) : List GatewayPayload :=
  if c.session_id = "" then implIdentify c
  else [.resumeP c.token c.session_id c.last_sequence]

/-- Translation of `ReconnectionManager::attempt_reconnection`
(reconnection.cpp lines 106-116) with the callbacks installed by
`WebSocketClient::Impl` (websocket_client.cpp lines 91-103):
`reconnect_callback_(should_resume)` runs `resume()` when
`should_resume` is true and `identify()` otherwise, and then, when
`should_resume` is true, `resume_callback_()` runs `resume()` a second
time.  The result is the concatenated list of payloads sent. -/
def attempt_reconnection (c : WSImpl) : List GatewayPayload :=
  let sr := should_resume c.mgr
  (if sr then implResume c else implIdentify c) ++
    (if sr then implResume c else [])

/-- Fields of an inbound gateway payload that the message handler in
`WebSocketClient::Impl` reads: `op`, `s`, `t`, the HELLO
`d.heartbeat_interval`, and the INVALID_SESSION boolean `d`.  A
`none` component models an absent field. -/
structure InboundPayload where
  op : Option Int
  s : Option Int
  t : Option String
  d_heartbeat_interval : Option Int
  d_resumable : Bool
deriving DecidableEq

/-- Translation of the `set_message_handler` body of
`WebSocketClient::Impl` (websocket_client.cpp lines 53-89).  HELLO
(op 10) starts the heartbeat loop with the advertised interval;
INVALID_SESSION (op 9) forwards `d` to the reconnection manager;
RECONNECT (op 7) is treated as a disconnect with code 1000.  No branch
of the handler assigns `last_sequence_`; in particular a DISPATCH
(op 0) payload only reaches the event callback. -/
def handle_message (c : WSImpl) (p : InboundPayload) : WSImpl :=
  match p.op with
  | none => c
  | some op =>
    if op = 10 then
      match p.d_heartbeat_interval with
      | some iv => { c with heartbeat_interval := some iv }
      | none => c
    else if op = 9 then
      { c with mgr := handle_invalid_session c.mgr p.d_resumable }
    else if op = 7 then
      { c with mgr := handle_disconnect c.mgr 1000 }
    else c

/-- The heartbeat payload `{op:1, d: last_sequence_}` built by the loop
in `WebSocketClient::Impl::start_heartbeat` (websocket_client.cpp
lines 202-219).  The `d` field is the raw `int` member; the code never
sends a null `d`. -/
def heartbeat_payload (c : WSImpl) : Int × Int :=
  (1, c.last_sequence)

/-! ## HTTP request pipeline (src/api/http_client.cpp) -/

/-- Outcome of the transport call (`curl_easy_perform` plus status
readout) that `HTTPClient::perform_request` reacts to: either a curl
failure, or a response with status, body, and the server `message`
field when the body is non-empty and parses as JSON carrying one
(exactly the condition at http_client.cpp lines 133-141). -/
inductive TransportResult where
  | curlFail (err : String)
  | response (status : Int) (body : String) (messageField : Option String)
deriving DecidableEq

/-- Errors the pipeline can deliver to a waiter.  `runtimeError` is the
`std::runtime_error` that `perform_request` throws; `rateLimited` is
the `RateLimitException` defined in core/exceptions.cpp, which carries
a retry-after value — no statement of http_client.cpp ever constructs
it. -/
inductive PipelineError where
  | runtimeError (msg : String)
  | rateLimited (retry_after : Int) (msg : String)
deriving DecidableEq

/-- Translation of `HTTPClient::perform_request` (http_client.cpp
lines 68-147): a curl failure throws `CURL error: ...`; a response
with status `>= 400` throws `HTTP error <status>` extended with
`: <message>` when the body yields one; every other response returns
the body.  There is no branch for status 429 and no rate-limiter
interaction (the class holds no rate limiter). -/
def perform_request (tr : TransportResult) : Except PipelineError String :=
  match tr with
  | .curlFail e => .error (.runtimeError ("CURL error: " ++ e))
  | .response status body msg =>
    if 400 ≤ status then
      .error (.runtimeError ("HTTP error " ++ toString status ++
        (match msg with
         | some m => ": " ++ m
         | none => "")))
    else .ok body

/-- Completion delivered to a request's promise by the worker. -/
inductive CompletionResult where
  | value (body : String)
  | failed (e : PipelineError)
deriving DecidableEq

/-- Translation of the per-request body of `HTTPClient::worker_loop`
(http_client.cpp lines 50-62): `perform_request` is invoked exactly
once; success sets the parsed body as the value, an exception is
forwarded to the promise.  JSON parsing of a successful body is
treated as the identity (parse failures are irrelevant to the claims
proved). -/
def worker_process_one (tr : TransportResult) : CompletionResult :=
  match perform_request tr with
  | .ok body => .value body
  | .error e => .failed e

/-- Translation of the loop structure of `HTTPClient::worker_loop`
(http_client.cpp lines 39-66): requests are popped from the queue in
FIFO order and each is processed exactly once; there is no retry
path. -/
def worker_loop (reqs : List TransportResult) : List CompletionResult :=
  reqs.map worker_process_one

/-! ## Rate limiter (src/api/rate_limiter.cpp) -/

/-- Translation of `RateLimitInfo` (rate_limiter.h lines 14-19);
`reset_time` is a steady-clock instant in milliseconds. -/
structure RateLimitInfo where
  remaining : Int := -1
  limit : Int := -1
  reset_time : Int := 0
  globalFlag : Bool := false
deriving DecidableEq

/-- Translation of `RateLimiter::EndpointLimit` (rate_limiter.h lines
34-38); `request_times` is the queue of request instants, front
first. -/
structure EndpointLimit where
  max_requests : Int
  window : Int
  request_times : List Int
deriving DecidableEq

/-- State of `RateLimiter` (rate_limiter.h lines 40-42).  The two
unordered maps are modelled as association lists looked up by key. -/
structure RateLimiter where
  rate_limits : List (String × RateLimitInfo) := []
  endpoint_limits : List (String × EndpointLimit) := []
  global_reset_time : Int := 0
deriving DecidableEq

/-- Upsert into an association list, the effect of `map[key] = value`
on `std::unordered_map`. -/
def upsertRL (l : List (String × RateLimitInfo)) (k : String)
    (v : RateLimitInfo) : List (String × RateLimitInfo) :=
  match l with
  | [] => [(k, v)]
  | kv :: rest => if kv.1 = k then (k, v) :: rest else kv :: upsertRL rest k v

/-- Translation of `RateLimiter::update_limits` (rate_limiter.cpp
lines 9-16): the info is stored verbatim under the endpoint key, and
when its global flag is set the global reset instant is replaced. -/
def update_limits (rl : RateLimiter) (endpoint : String)
    (info : RateLimitInfo) : RateLimiter :=
  let rl := { rl with rate_limits := upsertRL rl.rate_limits endpoint info }
  if info.globalFlag then { rl with global_reset_time := info.reset_time }
  else rl

/-- Translation of `RateLimiter::cleanup_old_requests` (rate_limiter.cpp
lines 63-73): pops queued instants from the front while they are
strictly older than `now - window`. -/
def cleanup_old_requests (el : EndpointLimit) (now : Int) : EndpointLimit :=
  { el with request_times :=
      el.request_times.dropWhile (fun tp => tp < now - el.window) }

/-- Value of `static_cast<size_t>` on an `int`, as a nonnegative
integer: negative values wrap modulo 2^64. -/
def castSizeT (m : Int) : Int := m % (2 ^ 64)

/-- Translation of `RateLimiter::can_make_request` (rate_limiter.cpp
lines 18-43): false while the global reset instant is in the future;
false when the endpoint's bucket is known with `remaining >= 0`,
`remaining == 0` and `now < reset_time`; false when a configured local
sliding window is saturated after cleanup; true otherwise.  Only the
returned boolean is modelled; the cleanup's in-place queue trim does
not change any later answer of the predicates proved. -/
def can_make_request (rl : RateLimiter) (endpoint : String) (now : Int) : Bool :=
  if now < rl.global_reset_time then false
  else
    let bucketBlocked :=
      match rl.rate_limits.lookup endpoint with
      | some info =>
          info.remaining ≥ 0 && (info.remaining = 0 && now < info.reset_time)
      | none => false
    if bucketBlocked then false
    else
      match rl.endpoint_limits.lookup endpoint with
      | some el =>
          let el := cleanup_old_requests el now
          if (el.request_times.length : Int) ≥ castSizeT el.max_requests then
            false
          else true
      | none => true

/-! ## Shard manager (src/gateway/shard_manager.cpp) -/

/-- Translation of `ShardInfo` (shard_manager.h lines 21-35) with the
constructor defaults: empty session id, sequence 0, flags false. -/
structure ShardInfo where
  shard_id : Int
  shard_count : Int
  session_id : String := ""
  sequence_number : Int := 0
  is_connected : Bool := false
  is_resumable : Bool := false
  reconnect_attempts : Int := 0
deriving DecidableEq

/-- Fields of a gateway event payload that
`ShardManager::handle_shard_event` and `handle_shard_ready` read:
`op`, `s`, `t` and the READY `d.session_id`. -/
structure ShardEvent where
  op : Option Int
  s : Option Int
  t : Option String
  d_session_id : Option String
deriving DecidableEq

/-- Translation of `ShardManager::handle_shard_ready`
(shard_manager.cpp lines 463-475): stores the payload's `session_id`
(empty when absent), marks the shard resumable, and resets the
sequence number to 0. -/
def handle_shard_ready (info : ShardInfo) (d_session_id : Option String) :
    ShardInfo :=
  { info with
    session_id := d_session_id.getD ""
    is_resumable := true
    sequence_number := 0 }

/-- Translation of `ShardManager::handle_shard_resume`
(shard_manager.cpp lines 476-482): only sets the resumable flag. -/
def handle_shard_resume (info : ShardInfo) : ShardInfo :=
  { info with is_resumable := true }

/-- Translation of `ShardManager::handle_shard_event`
(shard_manager.cpp lines 438-461): for a payload with `op == 0` and an
`s` field the sequence number is taken from `s`; then a READY payload
runs `handle_shard_ready` and a RESUMED payload runs
`handle_shard_resume`; the event is forwarded to the user callback
unchanged. -/
def handle_shard_event (info : ShardInfo) (ev : ShardEvent) : ShardInfo :=
  let info :=
    match ev.op, ev.s with
    | some 0, some s => { info with sequence_number := s }
    | _, _ => info
  match ev.t with
  | some t =>
      if t = "READY" then handle_shard_ready info ev.d_session_id
      else if t = "RESUMED" then handle_shard_resume info
      else info
  | none => info

/-- Translation of `ShardManager::get_shard_for_guild`
(shard_manager.cpp lines 553-564): returns 0 when the configured shard
count is ≤ 1; otherwise parses the guild id as `uint64_t` (`none`
models a `std::stoull` failure, which yields 0) and returns
`(guild_id >> 22) % shard_count`. -/
def get_shard_for_guild (shard_count : Int) (guild_id : Option (Fin (2 ^ 64))) :
    Int :=
  if shard_count ≤ 1 then 0
  else
    match guild_id with
    | none => 0
    | some g => ((g.val >>> 22) % shard_count.toNat : ℕ)

/-! ## TTL cache (src/cache/cache_manager.cpp)

System-clock instants are modelled as integer milliseconds since the
epoch; the `duration_cast<seconds>` used by export truncates toward
zero.  The JSON value held by an entry only passes through and is an
abstract type parameter. -/

/-- Translation of `CacheEntry` (cache_manager.h lines 18-42) with the
fields the claims touch. -/
structure CacheEntry (α : Type) where
  value : α
  created_at : Int
  expires_at : Int
  is_persistent : Bool
deriving DecidableEq

/-- Translation of `CacheEntry::is_expired` (cache_manager.h lines
39-41): persistent entries never expire; otherwise the entry is
expired once `now` is strictly past `expires_at`. -/
def CacheEntry.is_expired {α : Type} (e : CacheEntry α) (now : Int) : Bool :=
  !e.is_persistent && now > e.expires_at

/-- One entry of the export JSON written by
`CacheManager::export_cache` (cache_manager.cpp lines 332-344):
`value`, `created_at` and `expires_at` in whole epoch seconds, and
`is_persistent`. -/
structure ExportedEntry (α : Type) where
  value : α
  created_at_s : Int
  expires_at_s : Int
  is_persistent : Bool
deriving DecidableEq

/-- Truncation of an epoch-millisecond instant to whole seconds, the
`duration_cast<seconds>` of the export (truncates toward zero:
`Int.tdiv`). -/
def msToSec (t : Int) : Int := t.tdiv 1000

/-- Translation of `CacheManager::export_cache` (cache_manager.cpp
lines 326-356): exactly the non-expired entries are written, each with
its instants truncated to whole seconds.  The `config` object of the
export carries no entries and is omitted. -/
def export_cache {α : Type} (c : List (String × CacheEntry α)) (now : Int) :
    List (String × ExportedEntry α) :=
  (c.filter (fun kv => !kv.2.is_expired now)).map fun kv =>
    (kv.1, { value := kv.2.value
             created_at_s := msToSec kv.2.created_at
             expires_at_s := msToSec kv.2.expires_at
             is_persistent := kv.2.is_persistent })

/-- The cache entry `CacheManager::import_cache` reconstructs from one
exported entry (cache_manager.cpp lines 374-387): the epoch-second
instants are scaled back to time points. -/
def import_entry {α : Type} (e : ExportedEntry α) : CacheEntry α :=
  { value := e.value
    created_at := e.created_at_s * 1000
    expires_at := e.expires_at_s * 1000
    is_persistent := e.is_persistent }

/-- Upsert of a cache entry, the effect of `cache_[key] = entry`. -/
def upsertCache {α : Type} (c : List (String × CacheEntry α)) (k : String)
    (e : CacheEntry α) : List (String × CacheEntry α) :=
  match c with
  | [] => [(k, e)]
  | kv :: rest => if kv.1 = k then (k, e) :: rest else kv :: upsertCache rest k e

/-- Translation of `CacheManager::import_cache` (cache_manager.cpp
lines 358-396): each entry of the data is skipped when its key is
empty or when `overwrite` is false and the key already exists in the
(possibly already grown) cache; otherwise it is reconstructed and
stored. -/
def import_cache {α : Type} (dest : List (String × CacheEntry α))
    (data : List (String × ExportedEntry α)) (overwrite : Bool) :
    List (String × CacheEntry α) :=
  data.foldl
    (fun acc kv =>
      if kv.1 = "" then acc
      else if !overwrite && (acc.lookup kv.1).isSome then acc
      else upsertCache acc kv.1 (import_entry kv.2))
    dest

/-- The truncation a cache entry undergoes in an export/import round
trip: both instants are cut to whole seconds. -/
def truncEntry {α : Type} (e : CacheEntry α) : CacheEntry α :=
  { e with
    created_at := msToSec e.created_at * 1000
    expires_at := msToSec e.expires_at * 1000 }

/-! ## Event dispatcher (src/events/event_dispatcher.cpp)

The handler callback (`std::function`) is modelled by an optional
token: `some n` is a live callback, `none` is the empty function left
behind in a moved-from `EventHandlerInfo`. -/

/-- Translation of `EventHandlerInfo` (event_dispatcher.h lines
29-39). -/
structure EventHandlerInfo where
  callback : Option Nat
  priority : Int
  id : String
  once : Bool
  created_at : Int
deriving DecidableEq

/-- A moved-from `EventHandlerInfo`, the state of the slots that
`std::remove_if` leaves between its returned iterator and `end()`:
the `std::string` id and the `std::function` callback are left empty
by the move; the scalar members are unspecified and modelled as 0.
Only the number of such slots matters to the theorems below. -/
def movedFromHandler : EventHandlerInfo :=
  { callback := none, priority := 0, id := "", once := false, created_at := 0 }

/-- Handler table of `EventDispatcher` (`handlers_`), an unordered map
from event name to a vector of handlers, modelled as an association
list. -/
abbrev HandlerTable : Type := List (String × List EventHandlerInfo)

/-- Handlers registered for an event (an absent event has none). -/
def handlersFor (tbl : HandlerTable) (event : String) : List EventHandlerInfo :=
  (List.lookup event tbl).getD []

/-- Number of handlers stored for an event, the per-event count
reported by `get_statistics` / `get_handler_count` (the vector's
`size()`). -/
def handlerCount (tbl : HandlerTable) (event : String) : Nat :=
  (handlersFor tbl event).length

/-- Replace the handler vector stored for an existing event key. -/
def setHandlers (tbl : HandlerTable) (event : String)
    (hs : List EventHandlerInfo) : HandlerTable :=
  match tbl with
  | [] => []
  | kv :: rest =>
      if kv.1 = event then (event, hs) :: rest
      else kv :: setHandlers rest event hs

/-- Translation of `EventDispatcher::off` (event_dispatcher.cpp lines
159-179).  When the event key is absent the call returns false.
Otherwise the code runs `std::remove_if` over the vector — which moves
the non-matching handlers to the front and leaves moved-from objects
in the tail — and returns whether the returned iterator differs from
`end()`; the vector is never erased, so its length is unchanged. -/
def off (tbl : HandlerTable) (event handler_id : String) :
    Bool × HandlerTable :=
  match List.lookup event tbl with
  | none => (false, tbl)
  | some handlers =>
      let kept := handlers.filter (fun h => h.id ≠ handler_id)
      let removedCount := handlers.length - kept.length
      let newHandlers := kept ++ List.replicate removedCount movedFromHandler
      (decide (removedCount ≠ 0), setHandlers tbl event newHandlers)

/-- Side condition of a `can_make_request` probe: the endpoint's local
sliding window (when configured) is not saturated after the cleanup
the probe performs. -/
def windowNotSaturated (rl : RateLimiter) (endpoint : String) (now : Int) :
    Prop :=
  match rl.endpoint_limits.lookup endpoint with
  | some el =>
      ((cleanup_old_requests el now).request_times.length : Int) <
        castSizeT el.max_requests
  | none => True

/-! ## Helper lemmas -/

/-- Clearing branch of `handle_disconnect`: a close code classified as
non-resumable wipes the session. -/
lemma handle_disconnect_clears (m : ReconnectionManager) (c : Int)
    (hauto : m.auto_reconnect_enabled = true)
    (h : is_resumable_close_code c = false) :
    (handle_disconnect m c).session_info =
      { session_id := "", sequence_number := 0, can_resume := false } := by
  simp [handle_disconnect, hauto, h]

/-- Preserving branch of `handle_disconnect`: a resumable close code
with a resumable session keeps id and sequence. -/
lemma handle_disconnect_preserves (m : ReconnectionManager) (c : Int)
    (hauto : m.auto_reconnect_enabled = true)
    (h : is_resumable_close_code c = true)
    (hcan : m.session_info.can_resume = true) :
    (handle_disconnect m c).session_info =
      { m.session_info with can_resume := true } := by
  simp [handle_disconnect, hauto, h, hcan]

/-- Codes in the websocket range [1000, 2000) are classified
resumable. -/
lemma resumable_of_ws_range (c : Int) (h1 : 1000 ≤ c) (h2 : c < 2000) :
    is_resumable_close_code c = true := by
  unfold is_resumable_close_code
  split
  · rfl
  · split
    · rename_i hcond
      simp only [Bool.or_eq_true, decide_eq_true_eq] at hcond
      omega
    · simp only [decide_eq_true_eq]
      exact ⟨h1, h2⟩

/-- On a nonnegative rational, the truncating cast agrees with the
floor. -/
lemma ratTrunc_of_nonneg (x : ℚ) (h : 0 ≤ x) : ratTrunc x = ⌊x⌋ := by
  simp [ratTrunc, h]

/-- Looking up the upserted key returns the stored info. -/
lemma lookup_upsertRL (l : List (String × RateLimitInfo)) (k : String)
    (v : RateLimitInfo) : (upsertRL l k v).lookup k = some v := by
  induction l with
  | nil => simp [upsertRL, List.lookup]
  | cons kv rest ih =>
    by_cases h : kv.1 = k
    · simp [upsertRL, h, List.lookup]
    · have hbeq : (k == kv.1) = false := beq_eq_false_iff_ne.mpr (Ne.symm h)
      simp [upsertRL, h, List.lookup, ih, hbeq]

/-- `update_limits` always stores the info under the endpoint key,
whether or not the global flag is set. -/
lemma update_limits_rate_limits (rl : RateLimiter) (e : String)
    (info : RateLimitInfo) :
    (update_limits rl e info).rate_limits = upsertRL rl.rate_limits e info := by
  by_cases h : info.globalFlag <;> simp [update_limits, h]

/-- `update_limits` leaves the local-policy table unchanged. -/
lemma update_limits_endpoint_limits (rl : RateLimiter) (e : String)
    (info : RateLimitInfo) :
    (update_limits rl e info).endpoint_limits = rl.endpoint_limits := by
  by_cases h : info.globalFlag <;> simp [update_limits, h]

/-- The queue cleanup does not touch the window's request cap. -/
lemma cleanup_max_requests (el : EndpointLimit) (now : Int) :
    (cleanup_old_requests el now).max_requests = el.max_requests := rfl

/-- A key found in neither part of an appended association list is
found in the whole. -/
lemma lookup_append_none {β : Type} (l₁ l₂ : List (String × β)) (k : String)
    (h₁ : l₁.lookup k = none) (h₂ : l₂.lookup k = none) :
    (l₁ ++ l₂).lookup k = none := by
  induction l₁ with
  | nil => simpa using h₂
  | cons kv rest ih =>
    cases hbeq : (k == kv.1) with
    | true => simp [List.lookup, hbeq] at h₁
    | false =>
      simp only [List.cons_append, List.lookup, hbeq] at h₁ ⊢
      exact ih h₁

/-- Upserting a key that is absent from the cache appends the
entry. -/
lemma upsertCache_not_mem {α : Type} (c : List (String × CacheEntry α))
    (k : String) (e : CacheEntry α) (h : c.lookup k = none) :
    upsertCache c k e = c ++ [(k, e)] := by
  induction c with
  | nil => simp [upsertCache]
  | cons kv rest ih =>
    by_cases hk : kv.1 = k
    · have hbeq : (k == kv.1) = true := beq_iff_eq.mpr hk.symm
      simp [List.lookup, hbeq] at h
    · have hbeq : (k == kv.1) = false := beq_eq_false_iff_ne.mpr (Ne.symm hk)
      simp only [List.lookup, hbeq] at h
      simp [upsertCache, hk, ih h]

/-- Unfolding one step of the import loop. -/
lemma import_cache_cons {α : Type} (dest : List (String × CacheEntry α))
    (kv : String × ExportedEntry α) (rest : List (String × ExportedEntry α))
    (ow : Bool) :
    import_cache dest (kv :: rest) ow =
      import_cache
        (if kv.1 = "" then dest
         else if !ow && (dest.lookup kv.1).isSome then dest
         else upsertCache dest kv.1 (import_entry kv.2)) rest ow := rfl

/-- Importing, with overwrite on, data whose keys are non-empty,
pairwise distinct and absent from the destination appends all
reconstructed entries in order. -/
lemma import_cache_append {α : Type} (data : List (String × ExportedEntry α))
    (acc : List (String × CacheEntry α))
    (hk : ∀ kv ∈ data, kv.1 ≠ "")
    (hdisj : ∀ kv ∈ data, acc.lookup kv.1 = none)
    (hnd : data.Pairwise (fun a b => a.1 ≠ b.1)) :
    import_cache acc data true =
      acc ++ data.map (fun kv => (kv.1, import_entry kv.2)) := by
  induction data generalizing acc with
  | nil => simp [import_cache]
  | cons kv rest ih =>
    have hk1 : kv.1 ≠ "" := hk kv (List.mem_cons_self _ _)
    have hlk : acc.lookup kv.1 = none := hdisj kv (List.mem_cons_self _ _)
    rw [import_cache_cons, if_neg hk1, if_neg (by simp),
      upsertCache_not_mem _ _ _ hlk]
    rw [List.pairwise_cons] at hnd
    rw [ih (acc ++ [(kv.1, import_entry kv.2)])
        (fun p hp => hk p (List.mem_cons_of_mem _ hp))
        (fun p hp => by
          refine lookup_append_none _ _ _
            (hdisj p (List.mem_cons_of_mem _ hp)) ?_
          have hne : p.1 ≠ kv.1 := fun hh => hnd.1 p hp hh.symm
          simp [List.lookup, beq_eq_false_iff_ne.mpr hne])
        hnd.2]
    simp

/-- Replacing the vector stored under a present key is seen by a
lookup of that key. -/
lemma lookup_setHandlers (tbl : HandlerTable) (e : String)
    (hs hs₀ : List EventHandlerInfo) (h : tbl.lookup e = some hs₀) :
    (setHandlers tbl e hs).lookup e = some hs := by
  induction tbl with
  | nil => simp [List.lookup] at h
  | cons kv rest ih =>
    by_cases hk : kv.1 = e
    · have hbeq : (e == kv.1) = true := beq_iff_eq.mpr hk.symm
      simp [setHandlers, hk, List.lookup]
    · have hbeq : (e == kv.1) = false := beq_eq_false_iff_ne.mpr (Ne.symm hk)
      simp only [List.lookup, hbeq] at h
      simp only [setHandlers, hk, if_false, List.lookup, hbeq]
      exact ih h

/-! ## C1 — close-code classification -/

/-- C1 counterexample: the claim says a disconnect with close code
4000 preserves the session, but `is_resumable_close_code` classifies
4000 as non-resumable and `handle_disconnect` clears the stored
session id and sequence. -/
theorem C1_counterexample :
    is_resumable_close_code 4000 = false ∧
    (handle_disconnect
        { auto_reconnect_enabled := true
          session_info :=
            { session_id := "abc", sequence_number := 2, can_resume := true } }
        4000).session_info =
      { session_id := "", sequence_number := 0, can_resume := false } := by
  decide

/-- C1 (amended): every close code in {4000-4005, 4007-4014} is
classified non-resumable and handling a disconnect with it clears the
session identity; every code in [1000, 2000) is classified resumable,
and handling a disconnect with a resumable code on a session whose
resumable flag is set preserves the session id and last sequence. -/
theorem C1_close_code_classification (m : ReconnectionManager) (c : Int)
    (hauto : m.auto_reconnect_enabled = true) :
    ((c = 4000 ∨ c = 4001 ∨ c = 4002 ∨ c = 4003 ∨ c = 4004 ∨ c = 4005 ∨
      c = 4007 ∨ c = 4008 ∨ c = 4009 ∨ c = 4010 ∨ c = 4011 ∨ c = 4012 ∨
      c = 4013 ∨ c = 4014) →
      is_resumable_close_code c = false ∧
      (handle_disconnect m c).session_info =
        { session_id := "", sequence_number := 0, can_resume := false }) ∧
    (1000 ≤ c → c < 2000 →
      is_resumable_close_code c = true ∧
      (m.session_info.can_resume = true →
        (handle_disconnect m c).session_info =
          { m.session_info with can_resume := true })) := by
  constructor
  · intro hc
    have hfalse : is_resumable_close_code c = false := by
      rcases hc with h|h|h|h|h|h|h|h|h|h|h|h|h|h <;> subst h <;> decide
    exact ⟨hfalse, handle_disconnect_clears m c hauto hfalse⟩
  · intro h1 h2
    have htrue := resumable_of_ws_range c h1 h2
    exact ⟨htrue, fun hcan => handle_disconnect_preserves m c hauto htrue hcan⟩

/-- C1 witness: the classification theorem applied at close code 4000
on a concrete manager. -/
theorem C1_close_code_classification_witness :
    is_resumable_close_code 4000 = false ∧
    (handle_disconnect
        { auto_reconnect_enabled := true
          session_info :=
            { session_id := "s", sequence_number := 7, can_resume := true } }
        4000).session_info =
      { session_id := "", sequence_number := 0, can_resume := false } :=
  (C1_close_code_classification
      { auto_reconnect_enabled := true
        session_info :=
          { session_id := "s", sequence_number := 7, can_resume := true } }
      4000 rfl).1 (Or.inl rfl)

/-! ## C2 — resume after a resumable close -/

/-- C2 (confirmed): after a resumable close on a connection whose
stored session id (in the controller and in the socket impl) is
non-empty and whose resumable flag is set, the reconnection attempt
sends only RESUME payloads `{op:6, d:{token, session_id, seq}}` built
from the stored id and sequence — it in fact sends the RESUME twice,
once through each installed callback — and never an IDENTIFY. -/
theorem C2_resume_not_identify (c : WSImpl) (code : Int)
    (hauto : c.mgr.auto_reconnect_enabled = true)
    (hres : is_resumable_close_code code = true)
    (hcan : c.mgr.session_info.can_resume = true)
    (hmgr : c.mgr.session_info.session_id ≠ "")
    (himpl : c.session_id ≠ "") :
    attempt_reconnection { c with mgr := handle_disconnect c.mgr code } =
      [.resumeP c.token c.session_id c.last_sequence,
       .resumeP c.token c.session_id c.last_sequence] ∧
    ∀ p ∈ attempt_reconnection { c with mgr := handle_disconnect c.mgr code },
      p.op = 6 ∧ ∀ t i, p ≠ .identifyP t i := by
  have hsess := handle_disconnect_preserves c.mgr code hauto hres hcan
  have hsr : should_resume (handle_disconnect c.mgr code) = true := by
    simp [should_resume, hsess, hmgr]
  have hlist :
      attempt_reconnection { c with mgr := handle_disconnect c.mgr code } =
        [.resumeP c.token c.session_id c.last_sequence,
         .resumeP c.token c.session_id c.last_sequence] := by
    simp [attempt_reconnection, hsr, implResume, himpl]
  refine ⟨hlist, ?_⟩
  intro p hp
  rw [hlist] at hp
  simp only [List.mem_cons, List.not_mem_nil, or_false] at hp
  rcases hp with h | h <;> subst h <;>
    exact ⟨rfl, fun t i => by simp⟩

/-- C2 witness: the resume theorem applied to a concrete connection
after a close with code 1006. -/
theorem C2_resume_not_identify_witness :
    attempt_reconnection
        { token := "tok", intents := 0, session_id := "abc",
          last_sequence := 2, heartbeat_interval := none,
          mgr := handle_disconnect
            { auto_reconnect_enabled := true
              session_info :=
                { session_id := "abc", sequence_number := 2,
                  can_resume := true } }
            1006 } =
      [.resumeP "tok" "abc" 2, .resumeP "tok" "abc" 2] :=
  (C2_resume_not_identify
      { token := "tok", intents := 0, session_id := "abc",
        last_sequence := 2, heartbeat_interval := none,
        mgr := { auto_reconnect_enabled := true
                 session_info :=
                   { session_id := "abc", sequence_number := 2,
                     can_resume := true } } }
      1006 rfl (by decide) rfl (by decide) (by decide)).1

/-! ## C3 — sequence tracking for heartbeats -/

/-- C3 (code bug): no branch of the websocket message handler updates
`last_sequence_` — processing any inbound payload, DISPATCH included,
leaves it unchanged — and the heartbeat always carries the raw member;
at the failing input (a fresh connection that receives a DISPATCH with
`s = 42`) the next heartbeat carries the stale initial value instead
of 42, contradicting the claim. -/
theorem C3_heartbeat_stale_sequence :
    (∀ (c : WSImpl) (p : InboundPayload),
        (handle_message c p).last_sequence = c.last_sequence ∧
        heartbeat_payload c = (1, c.last_sequence)) ∧
    (heartbeat_payload
        (handle_message
          { token := "t", intents := 0, session_id := "",
            last_sequence := 0, heartbeat_interval := none,
            mgr := { auto_reconnect_enabled := true
                     session_info :=
                       { session_id := "", sequence_number := 0,
                         can_resume := false } } }
          { op := some 0, s := some 42, t := some "MESSAGE_CREATE",
            d_heartbeat_interval := none, d_resumable := false })).2 = 0 ∧
    (42 : Int) ≠ 0 := by
  refine ⟨?_, by decide, by decide⟩
  intro c p
  refine ⟨?_, rfl⟩
  cases hop : p.op with
  | none => simp [handle_message, hop]
  | some op =>
    simp only [handle_message, hop]
    split_ifs
    · cases p.d_heartbeat_interval <;> rfl
    · rfl
    · rfl
    · rfl

/-! ## C6 — exponential backoff bounds -/

/-- C6 counterexample: at base delay 1000 ms, max delay 30000 ms,
attempt 0 and jitter u = 0.8005, the code's truncating cast yields
800 ms, while the claim's exact value `min(max_delay, base·2^k·u)` is
800.5 ms. -/
theorem C6_counterexample :
    ¬ ((calculate_backoff_delay 1000 30000 0 (1601 / 2000) : ℚ) =
        min ((30000 : ℚ)) ((1000 : ℚ) * 2 ^ (0 : ℕ) * (1601 / 2000))) := by
  have hval : ((1000 : ℤ) : ℚ) * 2 ^ (0 : ℕ) * (1601 / 2000) = 1601 / 2 := by
    norm_num
  have hf : ⌊(1601 / 2 : ℚ)⌋ = 800 := by
    rw [Int.floor_eq_iff]
    norm_num
  have h : calculate_backoff_delay 1000 30000 0 (1601 / 2000) = 800 := by
    unfold calculate_backoff_delay
    rw [ratTrunc_of_nonneg _ (by norm_num), hval, hf]
    decide
  rw [h]
  norm_num

/-- C6 (amended): the scheduled delay equals
`min(max_delay, trunc(base·2^k·u))` — the double product passes
through a truncating integer cast — and for jitter u in [0.8, 1.2] it
lies between `min(max_delay, floor(0.8·base·2^k))` and
`min(max_delay, 1.2·base·2^k)`. -/
theorem C6_backoff_delay (base maxDelay : ℤ) (k : ℕ) (u : ℚ)
    (hbase : 0 ≤ base) (hu1 : 4 / 5 ≤ u) (hu2 : u ≤ 6 / 5) :
    calculate_backoff_delay base maxDelay k u =
      min ⌊(base : ℚ) * 2 ^ k * u⌋ maxDelay ∧
    min ⌊(4 / 5 : ℚ) * ((base : ℚ) * 2 ^ k)⌋ maxDelay ≤
      calculate_backoff_delay base maxDelay k u ∧
    (calculate_backoff_delay base maxDelay k u : ℚ) ≤
      min ((6 / 5 : ℚ) * ((base : ℚ) * 2 ^ k)) ((maxDelay : ℚ)) := by
  have hb0 : (0 : ℚ) ≤ (base : ℚ) := by exact_mod_cast hbase
  have hb : (0 : ℚ) ≤ (base : ℚ) * 2 ^ k := by positivity
  have hu0 : (0 : ℚ) ≤ u := le_trans (by norm_num) hu1
  have hx : (0 : ℚ) ≤ (base : ℚ) * 2 ^ k * u := mul_nonneg hb hu0
  have heq : calculate_backoff_delay base maxDelay k u =
      min ⌊(base : ℚ) * 2 ^ k * u⌋ maxDelay := by
    unfold calculate_backoff_delay
    rw [ratTrunc_of_nonneg _ hx]
  refine ⟨heq, ?_, ?_⟩
  · rw [heq]
    refine min_le_min ?_ le_rfl
    apply Int.floor_le_floor
    calc (4 / 5 : ℚ) * ((base : ℚ) * 2 ^ k)
        ≤ u * ((base : ℚ) * 2 ^ k) := mul_le_mul_of_nonneg_right hu1 hb
      _ = (base : ℚ) * 2 ^ k * u := by ring
  · rw [heq]
    rw [Int.cast_min]
    refine min_le_min ?_ le_rfl
    calc ((⌊(base : ℚ) * 2 ^ k * u⌋ : ℤ) : ℚ)
        ≤ (base : ℚ) * 2 ^ k * u := Int.floor_le _
      _ ≤ (base : ℚ) * 2 ^ k * (6 / 5) := mul_le_mul_of_nonneg_left hu2 hb
      _ = (6 / 5 : ℚ) * ((base : ℚ) * 2 ^ k) := by ring

/-- C6 witness: the backoff bounds at base 1000 ms, max 30000 ms,
attempt 0 and jitter 1. -/
theorem C6_backoff_delay_witness :
    calculate_backoff_delay 1000 30000 0 1 =
      min ⌊(1000 : ℚ) * 2 ^ (0 : ℕ) * 1⌋ 30000 ∧
    min ⌊(4 / 5 : ℚ) * ((1000 : ℚ) * 2 ^ (0 : ℕ))⌋ 30000 ≤
      calculate_backoff_delay 1000 30000 0 1 ∧
    (calculate_backoff_delay 1000 30000 0 1 : ℚ) ≤
      min ((6 / 5 : ℚ) * ((1000 : ℚ) * 2 ^ (0 : ℕ))) ((30000 : ℚ)) :=
  C6_backoff_delay 1000 30000 0 1 (by norm_num) (by norm_num) (by norm_num)

/-! ## C4 — 429 handling in the HTTP pipeline -/

/-- C4 counterexample: for a response with status 429 the worker fails
the future with the generic runtime error `HTTP error 429`, not with a
rate-limited error carrying a retry-after value. -/
theorem C4_counterexample :
    worker_process_one (.response 429 "" none) =
      .failed (.runtimeError "HTTP error 429") ∧
    ∀ ra msg, worker_process_one (.response 429 "" none) ≠
        .failed (.rateLimited ra msg) := by
  have h1 : worker_process_one (.response 429 "" none) =
      .failed (.runtimeError "HTTP error 429") := by decide
  refine ⟨h1, ?_⟩
  intro ra msg h
  rw [h1] at h
  exact PipelineError.noConfusion (CompletionResult.failed.inj h)

/-- C4 (amended): a 429 response completes the submission's future
with the generic runtime error `HTTP error 429` (extended with the
server message when one parses), never with a rate-limited error; the
worker performs each submission exactly once, in queue order, with no
rate-limiter interaction and no retry. -/
theorem C4_429_generic_error (body : String) (msgField : Option String) :
    worker_process_one (.response 429 body msgField) =
      .failed (.runtimeError ("HTTP error 429" ++
        (match msgField with
         | some m => ": " ++ m
         | none => ""))) ∧
    (∀ ra m, worker_process_one (.response 429 body msgField) ≠
        .failed (.rateLimited ra m)) ∧
    worker_loop [.response 429 body msgField] =
      [worker_process_one (.response 429 body msgField)] := by
  have h1 : worker_process_one (.response 429 body msgField) =
      .failed (.runtimeError ("HTTP error 429" ++
        (match msgField with
         | some m => ": " ++ m
         | none => ""))) := by
    cases msgField <;> rfl
  refine ⟨h1, ?_, rfl⟩
  intro ra m h
  rw [h1] at h
  exact PipelineError.noConfusion (CompletionResult.failed.inj h)

/-! ## C5 — rate-limit bucket invariants -/

/-- C5 counterexample: `update_limits` stores the reported info
verbatim, so an update carrying the default `remaining = -1` leaves a
stored remaining count that is negative, contradicting the claimed
`remaining ≥ 0` invariant. -/
theorem C5_counterexample :
    ((update_limits {} "r"
        { remaining := -1, limit := -1, reset_time := 0,
          globalFlag := false }).rate_limits.lookup "r" =
      some { remaining := -1, limit := -1, reset_time := 0,
             globalFlag := false }) ∧
    ¬ ((0 : Int) ≤ -1) := by decide

/-- C5 (amended): an update stores the reported info verbatim (its
remaining count may be negative, -1 meaning unknown); after an update
with `remaining = 0` and reset instant t, every `can_make_request`
probe before t returns false, and a probe at or after t returns true
provided the global window has elapsed and the endpoint's local
sliding window is not saturated. -/
theorem C5_zero_bucket_blocks (rl : RateLimiter) (e : String)
    (info : RateLimitInfo) (now : Int) (hrem : info.remaining = 0) :
    ((update_limits rl e info).rate_limits.lookup e = some info) ∧
    (now < info.reset_time →
      can_make_request (update_limits rl e info) e now = false) ∧
    (info.reset_time ≤ now →
      (update_limits rl e info).global_reset_time ≤ now →
      windowNotSaturated (update_limits rl e info) e now →
      can_make_request (update_limits rl e info) e now = true) := by
  have hlk : (update_limits rl e info).rate_limits.lookup e = some info := by
    rw [update_limits_rate_limits]
    exact lookup_upsertRL _ _ _
  refine ⟨hlk, ?_, ?_⟩
  · intro hlt
    unfold can_make_request
    by_cases hg : now < (update_limits rl e info).global_reset_time
    · simp [hg]
    · simp [hg, hlk, hrem, hlt]
  · intro hge hgl hw
    have hblock : ¬ (now < info.reset_time) := not_lt.mpr hge
    unfold can_make_request
    rw [if_neg (not_lt.mpr hgl)]
    unfold windowNotSaturated at hw
    cases hel : (update_limits rl e info).endpoint_limits.lookup e with
    | none => simp [hlk, hrem, hblock, hel]
    | some el =>
      rw [hel] at hw
      simp only at hw
      simp [hlk, hrem, hblock, hel, cleanup_max_requests, not_le.mpr hw]

/-- C5 witness: after an update with remaining 0 and reset instant
100, a probe at instant 50 is refused. -/
theorem C5_zero_bucket_blocks_witness :
    can_make_request
        (update_limits {} "r"
          { remaining := 0, limit := 5, reset_time := 100,
            globalFlag := false })
        "r" 50 = false :=
  (C5_zero_bucket_blocks {} "r"
      { remaining := 0, limit := 5, reset_time := 100, globalFlag := false }
      50 rfl).2.1 (by norm_num)

/-! ## C7 — shard-for-guild assignment -/

/-- C7 counterexample: the spec's concrete instance is wrong —
with shard count 4 and guild id 613425648685547541 the computed shard
is `(G >> 22) mod 4 = 0`, not 1. -/
theorem C7_counterexample :
    get_shard_for_guild 4 (some ⟨613425648685547541, by norm_num⟩) = 0 ∧
    (0 : Int) ≠ 1 := by
  constructor
  · decide
  · decide

/-- C7 (amended): for every guild id that parses as a 64-bit unsigned
integer G and every configured shard count N > 0, the owning shard
equals `(G >> 22) mod N`; at N = 4 and G = 613425648685547541 this is
0, not the 1 the spec expects. -/
theorem C7_shard_for_guild (G : ℕ) (hG : G < 2 ^ 64) (N : Int) (hN : 0 < N) :
    get_shard_for_guild N (some ⟨G, hG⟩) = ((G >>> 22) % N.toNat : ℕ) := by
  unfold get_shard_for_guild
  by_cases h : N ≤ 1
  · rw [if_pos h]
    have hN1 : N = 1 := le_antisymm h hN
    subst hN1
    simp
  · rw [if_neg h]

/-- C7 witness: the assignment rule evaluated at the spec's concrete
guild id with four shards. -/
theorem C7_shard_for_guild_witness :
    get_shard_for_guild 4 (some ⟨613425648685547541, by norm_num⟩) =
      ((613425648685547541 >>> 22) % (4 : Int).toNat : ℕ) :=
  C7_shard_for_guild 613425648685547541 (by norm_num) 4 (by norm_num)

/-! ## C8 — session record after READY -/

/-- C8 counterexample: processing a READY dispatch (op 0, s = 1,
session id "abc") on a fresh shard record leaves the resumable flag
true with sequence number 0, so `resumable → sequence > 0` fails in a
reachable state. -/
theorem C8_counterexample :
    (handle_shard_event { shard_id := 0, shard_count := 1 }
        { op := some 0, s := some 1, t := some "READY",
          d_session_id := some "abc" }).is_resumable = true ∧
    ¬ (0 < (handle_shard_event { shard_id := 0, shard_count := 1 }
        { op := some 0, s := some 1, t := some "READY",
          d_session_id := some "abc" }).sequence_number) := by
  decide

/-- C8 (amended): in the state reached immediately after a READY
dispatch is processed, the resumable flag is true, the sequence number
is 0 (cleared by `handle_shard_ready`), and the session id equals the
payload's `session_id` field (empty when absent) — so resumable does
not imply a positive last sequence there. -/
theorem C8_ready_clears_sequence (info : ShardInfo) (ev : ShardEvent)
    (ht : ev.t = some "READY") :
    (handle_shard_event info ev).is_resumable = true ∧
    (handle_shard_event info ev).sequence_number = 0 ∧
    (handle_shard_event info ev).session_id = ev.d_session_id.getD "" := by
  unfold handle_shard_event
  rw [ht]
  simp [handle_shard_ready]

/-- C8 witness: the READY theorem applied to a concrete shard record
and READY payload. -/
theorem C8_ready_clears_sequence_witness :
    (handle_shard_event { shard_id := 1, shard_count := 2 }
        { op := some 0, s := some 5, t := some "READY",
          d_session_id := some "sid" }).is_resumable = true ∧
    (handle_shard_event { shard_id := 1, shard_count := 2 }
        { op := some 0, s := some 5, t := some "READY",
          d_session_id := some "sid" }).sequence_number = 0 ∧
    (handle_shard_event { shard_id := 1, shard_count := 2 }
        { op := some 0, s := some 5, t := some "READY",
          d_session_id := some "sid" }).session_id =
      (some "sid").getD "" :=
  C8_ready_clears_sequence { shard_id := 1, shard_count := 2 }
    { op := some 0, s := some 5, t := some "READY",
      d_session_id := some "sid" } rfl

/-! ## C9 — cache export/import round trip -/

/-- C9 counterexample: export truncates instants to whole seconds, so
an entry expiring at 1.5 s re-imports with expiry 1.0 s; probed at
1.2 s the original cache has one non-expired entry while the
round-tripped cache has none, and the caches differ. -/
theorem C9_counterexample :
    (([("k", { value := "v", created_at := 0, expires_at := 1500,
               is_persistent := false })] :
        List (String × CacheEntry String)).filter
      (fun kv => !kv.2.is_expired 1200) =
      [("k", { value := "v", created_at := 0, expires_at := 1500,
               is_persistent := false })]) ∧
    ((import_cache []
        (export_cache
          ([("k", { value := "v", created_at := 0, expires_at := 1500,
                    is_persistent := false })] :
            List (String × CacheEntry String)) 1200) true).filter
      (fun kv => !kv.2.is_expired 1200) = []) ∧
    import_cache []
        (export_cache
          ([("k", { value := "v", created_at := 0, expires_at := 1500,
                    is_persistent := false })] :
            List (String × CacheEntry String)) 1200) true ≠
      [("k", { value := "v", created_at := 0, expires_at := 1500,
               is_persistent := false })] := by
  decide

/-- C9 (amended): exporting and then importing with overwrite on into
an empty cache yields exactly the original's non-expired entries with
the same keys, values and persistent flags and with the creation and
expiry instants truncated to whole seconds; the export itself contains
only non-expired entries. -/
theorem C9_roundtrip {α : Type} (c : List (String × CacheEntry α)) (now : Int)
    (hkeys : ∀ kv ∈ c, kv.1 ≠ "")
    (hnd : c.Pairwise (fun a b => a.1 ≠ b.1)) :
    import_cache [] (export_cache c now) true =
      (c.filter (fun kv => !kv.2.is_expired now)).map
        (fun kv => (kv.1, truncEntry kv.2)) ∧
    ∀ kv ∈ export_cache c now,
      ∃ e, (kv.1, e) ∈ c ∧ e.is_expired now = false := by
  constructor
  · have hk : ∀ kv ∈ export_cache c now, kv.1 ≠ "" := by
      intro kv hkv
      unfold export_cache at hkv
      rcases List.mem_map.mp hkv with ⟨p, hp, hpe⟩
      have hpc := (List.mem_filter.mp hp).1
      rw [← hpe]
      exact hkeys p hpc
    have hpair : (export_cache c now).Pairwise (fun a b => a.1 ≠ b.1) := by
      unfold export_cache
      rw [List.pairwise_map]
      exact (hnd.filter _)
    have h := import_cache_append (export_cache c now) [] hk
      (fun kv _ => rfl) hpair
    rw [h]
    unfold export_cache
    rw [List.map_map]
    simp [truncEntry, import_entry, Function.comp]
  · intro kv hkv
    unfold export_cache at hkv
    rcases List.mem_map.mp hkv with ⟨p, hp, hpe⟩
    rcases List.mem_filter.mp hp with ⟨hpc, hexp⟩
    refine ⟨p.2, ?_, ?_⟩
    · rw [← hpe]
      exact hpc
    · simpa using hexp

/-- C9 witness: the round-trip theorem applied to a one-entry cache
probed at instant 1200 ms. -/
theorem C9_roundtrip_witness :
    import_cache []
        (export_cache
          ([("k", { value := "v", created_at := 0, expires_at := 1500,
                    is_persistent := false })] :
            List (String × CacheEntry String)) 1200) true =
      (([("k", { value := "v", created_at := 0, expires_at := 1500,
                 is_persistent := false })] :
          List (String × CacheEntry String)).filter
        (fun kv => !kv.2.is_expired 1200)).map
        (fun kv => (kv.1, truncEntry kv.2)) :=
  (C9_roundtrip
      ([("k", { value := "v", created_at := 0, expires_at := 1500,
                is_persistent := false })] :
        List (String × CacheEntry String)) 1200
      (by decide) (by decide)).1

/-! ## C10 — handler removal by id -/

/-- C10 (code bug): `off` runs `std::remove_if` but never erases the
returned range, so the handler vector keeps its length; in particular
removing the only handler of an event returns true yet leaves the
event's handler count at 1 instead of decreasing it to 0. -/
theorem C10_off_never_shrinks :
    (∀ (tbl : HandlerTable) (e hid : String),
        handlerCount (off tbl e hid).2 e = handlerCount tbl e) ∧
    (off [("message",
        [{ callback := some 7, priority := 0, id := "h", once := false,
           created_at := 0 }])] "message" "h").1 = true ∧
    handlerCount
        (off [("message",
          [{ callback := some 7, priority := 0, id := "h", once := false,
             created_at := 0 }])] "message" "h").2 "message" = 1 := by
  refine ⟨?_, by decide, by decide⟩
  intro tbl e hid
  unfold off
  cases hlk : tbl.lookup e with
  | none => rfl
  | some handlers =>
    simp only
    unfold handlerCount handlersFor
    rw [lookup_setHandlers tbl e _ handlers hlk, hlk]
    simp only [Option.getD_some, List.length_append, List.length_replicate]
    have hle := List.length_filter_le (fun h => h.id ≠ hid) handlers
    omega

end DiscordCpp
